import Mathlib

/-!
Verification of the venue-scout multi-provider search pipeline
(`src/venue-scout/unified_search.py` and `src/venue-scout/providers/`).

The Python code is shallowly embedded: Python dicts with fixed keys become
structures, `dict.get(k, default)` becomes `Option.getD`, exceptions become
`Except String`, and the network/SDK boundary of each provider becomes an
explicit backend oracle passed to `search`.  Python string truthiness
(`if s:` on an optional string) is modelled by `optStrTruthy`.  Python's
`str.lower`/`str.strip`/substring tests are modelled by structural
functions over `List Char` (`pyLower`, `pyStrip`, `strContains`) so that
concrete instances evaluate inside the kernel.
-/

set_option maxHeartbeats 1000000

/-- Python truthiness of an optional string: `None` and `""` are falsy. -/
def optStrTruthy : Option String → Bool
  | none => false
  | some s => !(s = "")

/-- Python `str.lower()` (ASCII case fold, which covers every name used here). -/
def pyLower (s : String) : String :=
  ⟨s.data.map Char.toLower⟩

/-- ASCII whitespace as removed by Python `str.strip()`. -/
def isPySpace (c : Char) : Bool :=
  c = ' ' || c = '\t' || c = '\n' || c = '\r' || c = '\x0b' || c = '\x0c'

/-- Python `str.strip()`: drop whitespace from both ends. -/
def pyStrip (s : String) : String :=
  ⟨((s.data.dropWhile isPySpace).reverse.dropWhile isPySpace).reverse⟩

/-- Does `sub` occur contiguously inside `l`?  (Python `sub in s`.) -/
def charsContain (l sub : List Char) : Bool :=
  match l with
  | [] => sub.isEmpty
  | _ :: t => sub.isPrefixOf l || charsContain t sub

/-- Python substring test `pat in s`. -/
def strContains (s pat : String) : Bool :=
  charsContain s.data pat.data

/-- The standardized result shape produced by `SearchProvider._standardize_result`
(`providers/base.py`).  `α` is the type of the opaque `query_info` payload that
providers pass through unchanged; `error = none` models the absence of the
`"error"` key in the Python dict. -/
structure SearchResult (α : Type) where
  query_info : α
  text : String
  success : Bool
  timestamp : String
  error : Option String
deriving Repr, DecidableEq

/-- `SearchProvider._standardize_result` (`providers/base.py`, lines 62-87).
The `"error"` key is set only when `not success and error` holds under Python
truthiness.  `now` stands for `datetime.now().isoformat()`. -/
def standardize_result (raw_result : String) (query_info : α) (success : Bool)
    (error : Option String) (now : String) : SearchResult α :=
  { query_info := query_info
    text := raw_result
    success := success
    timestamp := now
    error := if !success && optStrTruthy error then error else none }

/-- One entry of the query list built by `build_search_queries`
(`unified_search.py`, lines 62-70): the dict
`{"query", "type", "region", "city", "priority"}`. -/
structure Query where
  query : String
  type : String
  region : String
  city : String
  priority : Int
deriving Repr, DecidableEq

/-- A `[regions.<key>]` table from `venues.toml`: optional `name`, optional
`priority`, list of `cities`. -/
structure RegionData where
  name : Option String
  priority : Option Int
  cities : List String
deriving Repr, DecidableEq

/-- The `[search_provider.claude]` table (`claude_provider.py`, lines 23-28). -/
structure ClaudeConfig where
  model : Option String
  max_tokens : Option Nat
  web_search_tool_version : Option String
deriving Repr, DecidableEq

/-- The `[search_provider.openrouter]` table (`openrouter_provider.py`, lines 28-31). -/
structure OpenRouterConfig where
  model : Option String
  max_tokens : Option Nat
  max_search_results : Option Nat
deriving Repr, DecidableEq

/-- The `[search_provider.ollama]` table (`ollama_provider.py`, lines 28-32). -/
structure OllamaConfig where
  model : Option String
  base_url : Option String
  max_tokens : Option Nat
  enable_web_search : Option Bool
deriving Repr, DecidableEq

/-- The `[search_provider.mcp]` table (`mcp_provider.py`, lines 44-49). -/
structure MCPConfig where
  server_type : Option String
  model : Option String
  max_results : Option Nat
  max_tokens : Option Nat
deriving Repr, DecidableEq

/-- The `[search_provider]` section of `venues.toml`
(`unified_search.py`, lines 148-150). -/
structure SPSection where
  default_provider : Option String
  fallback_providers : List String
  claude : Option ClaudeConfig
  openrouter : Option OpenRouterConfig
  ollama : Option OllamaConfig
  mcp : Option MCPConfig

/-- The empty `[search_provider]` section (`config.get("search_provider", {})`). -/
def SPSection.empty : SPSection :=
  { default_provider := none
    fallback_providers := []
    claude := none
    openrouter := none
    ollama := none
    mcp := none }

/-- The configuration loaded from `venues.toml`, restricted to the keys the
search pipeline reads.  Dicts keep insertion order, so `regions` and
`search_templates` are association lists iterated in order. -/
structure Config where
  search_templates : List (String × List String)
  regions : List (String × RegionData)
  search_provider : Option SPSection

/-- `templates.get(template_type, [])` on the `search_templates` dict. -/
def lookupTemplates : List (String × List String) → String → List String
  | [], _ => []
  | (k, v) :: rest, key => if k = key then v else lookupTemplates rest key

/-- Python `str.format(city=..., region=...)` applied to a search template:
scan the template, substituting the `{city}` and `{region}` fields.  Faithful
to `template_list[0].format(city=city, region=region)` for the templates this
configuration schema holds (whose brace fields are exactly `city`/`region`). -/
def fmtGo (city region : List Char) : Option (List Char) → List Char → List Char
  | none, [] => []
  | none, '{' :: rest => fmtGo city region (some []) rest
  | none, c :: rest => c :: fmtGo city region none rest
  | some buf, '}' :: rest =>
      (if buf.reverse = "city".data then city
       else if buf.reverse = "region".data then region
       else []) ++ fmtGo city region none rest
  | some buf, c :: rest => fmtGo city region (some (c :: buf)) rest
  | some _, [] => []

/-- Formats one template string with the given city and region. -/
def formatTemplate (template city region : String) : String :=
  ⟨fmtGo city.data region.data none template.data⟩

/-- The list accumulated by the region/city/category loops of
`build_search_queries` (`unified_search.py`, lines 47-70), before sorting. -/
def build_queries_raw (config : Config) : List Query :=
  config.regions.flatMap fun rkv =>
    let region_name := rkv.2.name.getD rkv.1
    let priority := rkv.2.priority.getD 5
    let cities := rkv.2.cities.take 3
    cities.flatMap fun city =>
      ["new_venues", "booking_opportunities"].filterMap fun template_type =>
        match lookupTemplates config.search_templates template_type with
        | [] => none
        | t :: _ => some
            { query := formatTemplate t city region_name
              type := template_type
              region := region_name
              city := city
              priority := priority }

/-- The comparison used by `queries.sort(key=lambda x: x["priority"])`. -/
def qle (a b : Query) : Prop := a.priority ≤ b.priority

instance : DecidableRel qle := fun a b => Int.decLe a.priority b.priority

instance : IsTotal Query qle := ⟨fun a b => Int.le_total a.priority b.priority⟩

instance : IsTrans Query qle := ⟨fun _ _ _ h₁ h₂ => Int.le_trans h₁ h₂⟩

/-- Python `list.sort` with a key is a stable ascending sort; it is modelled
by stable insertion sort on the priority comparison. -/
def sortByPriority (l : List Query) : List Query :=
  List.insertionSort qle l

/-- `build_search_queries` (`unified_search.py`, lines 41-73): build the raw
list, stable-sort ascending by priority, truncate to `limit`. -/
def build_search_queries (config : Config) (limit : Nat := 10) : List Query :=
  (sortByPriority (build_queries_raw config)).take limit

/-- The slice of a provider instance that `execute_searches` uses: its
reported name (`get_provider_name`) and its `search` method.  `search` takes
the query string and the query dict (passed as `query_info`). -/
structure ExecProvider (α : Type) where
  name : String
  search : String → α → SearchResult α

/-- The result-accumulating loop of `execute_searches`
(`unified_search.py`, lines 97-103): `for q in queries: results.append(...)`. -/
def search_loop (p : ExecProvider Query) : List Query → List (SearchResult Query) → List (SearchResult Query)
  | [], acc => acc
  | q :: qs, acc => search_loop p qs (acc ++ [p.search q.query q])

/-- The `output_data` dict serialized to the results file
(`unified_search.py`, lines 114-120). -/
structure ResultBatch (α : Type) where
  date : String
  provider : String
  queries_run : Nat
  successful : Nat
  results : List (SearchResult α)
deriving Repr, DecidableEq

/-- `execute_searches` (`unified_search.py`, lines 76-130): build the query
list, run every query through the provider, and assemble the batch that is
written to the results file.  `successful` mirrors
`sum(1 for r in results if r["success"])`. -/
def execute_searches (provider : ExecProvider Query) (config : Config)
    (max_queries : Nat) (now : String) : ResultBatch Query :=
  let queries := build_search_queries config max_queries
  let results := search_loop provider queries []
  { date := now
    provider := provider.name
    queries_run := queries.length
    successful := results.foldl (fun acc r => acc + (if r.success then 1 else 0)) 0
    results := results }

/-- Observable events of one `run_daily_searches` run, in order: provider
construction attempts (`create_provider`), `validate_config` calls, and
`provider.search` invocations. -/
inductive Event where
  | construct (name : String) (ok : Bool)
  | validate (name : String) (ok : Bool)
  | search (name : String) (query : String)
deriving Repr, DecidableEq

/-- Abstract behaviour of one provider candidate as the orchestrator sees it:
whether `create_provider` returns normally, what `validate_config` returns
(a `validate_config` that raises behaves like `false` here, since both exit
paths of `run_daily_searches` treat them identically), and the provider's
`search` method. -/
structure Candidate where
  constructs : Bool
  validates : Bool
  search : String → Query → SearchResult Query

/-- The candidate loop of `run_daily_searches` (`unified_search.py`,
lines 152-187): try each name in order; a construction failure or a failed
validation advances to the next candidate; the first candidate that
constructs and validates runs the whole batch.  Returns the event trace and
`some batch` on success, or `none` for the `sys.exit(1)` path (no results
file is written). -/
def run_candidates (env : String → Candidate) (config : Config) (max_queries : Nat)
    (now : String) : List String → List Event × Option (ResultBatch Query)
  | [] => ([], none)
  | n :: rest =>
    let c := env n
    if c.constructs then
      if c.validates then
        (Event.construct n true :: Event.validate n true ::
          (build_search_queries config max_queries).map (fun q => Event.search n q.query),
         some (execute_searches ⟨n, c.search⟩ config max_queries now))
      else
        let r := run_candidates env config max_queries now rest
        (Event.construct n true :: Event.validate n false :: r.1, r.2)
    else
      let r := run_candidates env config max_queries now rest
      (Event.construct n false :: r.1, r.2)

/-- The candidate order of `run_daily_searches`: the primary (the caller's
`provider_name` if truthy, else `default_provider`, default `"claude"`),
followed by `fallback_providers` in listed order. -/
def daily_candidates (config : Config) (provider_name : Option String) : List String :=
  let sp := config.search_provider.getD SPSection.empty
  let primary :=
    match provider_name with
    | some s => if s = "" then sp.default_provider.getD "claude" else s
    | none => sp.default_provider.getD "claude"
  primary :: sp.fallback_providers

/-- `run_daily_searches` (`unified_search.py`, lines 133-187), as the event
trace it produces and its outcome (`some` batch, or `none` for the fatal
`sys.exit(1)` after every candidate failed). -/
def run_daily_searches (env : String → Candidate) (config : Config)
    (max_queries : Nat) (now : String) (provider_name : Option String) :
    List Event × Option (ResultBatch Query) :=
  run_candidates env config max_queries now (daily_candidates config provider_name)

/-- Process-level facts the providers consult at construction time: the
environment (`os.environ.get`) and which optional SDK packages imported
successfully (the `try: import ... except ImportError` guards). -/
structure World where
  env : String → Option String
  anthropicAvailable : Bool
  openaiAvailable : Bool
  ollamaAvailable : Bool
  mcpAvailable : Bool

/-- The system prompt shared by the Claude and OpenRouter providers
(`claude_provider.py` lines 66-73, `openrouter_provider.py` lines 82-89).
The Claude provider builds it but never sends it (its API call passes only
the user message). -/
def venue_system_prompt : String :=
  "You are a venue research assistant helping a musician find\nperformance venues. When searching, focus on:\n- Live music venues, bars, restaurants with live music\n- Capacity and venue type when available\n- Booking contact information if found\n- Any mentions of venues seeking musicians\n\nFormat your findings as structured data."

/-- The user message built by the Claude and OpenRouter providers from the
query (`claude_provider.py` lines 75-84, `openrouter_provider.py` lines 91-100). -/
def search_user_message (query : String) : String :=
  "Search for: " ++ query ++ "\n\nAfter searching, provide a structured summary of venues found with:\n1. Venue name\n2. City/Location\n3. Venue type (bar, restaurant, theater, etc.)\n4. Any booking/contact info found\n5. Notable details (capacity, genres, etc.)\n\nAlso note any opportunities where venues are actively seeking musicians."

/-- Instance attributes of `ClaudeProvider` (`claude_provider.py`, lines 19-35).
`client` records whether `self.client` is an `Anthropic` instance (key present
and package importable) or `None`. -/
structure ClaudeProvider where
  model : String
  max_tokens : Nat
  web_search_tool_version : String
  client : Bool
deriving Repr, DecidableEq

/-- `ClaudeProvider.__init__` (`claude_provider.py`, lines 19-35). -/
def ClaudeProvider.ofConfig (w : World) (config : Config) : ClaudeProvider :=
  let cc := ((config.search_provider.getD SPSection.empty).claude).getD ⟨none, none, none⟩
  { model := cc.model.getD "claude-sonnet-4-20250514"
    max_tokens := cc.max_tokens.getD 2000
    web_search_tool_version := cc.web_search_tool_version.getD "web_search_20250305"
    client := optStrTruthy (w.env "ANTHROPIC_API_KEY") && w.anthropicAvailable }

/-- The request `ClaudeProvider.search` sends through the SDK. -/
structure ClaudeRequest where
  model : String
  max_tokens : Nat
  tool_version : String
  user_message : String

/-- The Anthropic API boundary: either the content blocks of a response
(`some text` for blocks with a `text` attribute) or the message of the
exception the call raised. -/
def ClaudeBackend : Type := ClaudeRequest → Except String (List (Option String))

/-- The extraction loop over `response.content`
(`claude_provider.py`, lines 95-98). -/
def extract_blocks_text (blocks : List (Option String)) : String :=
  blocks.foldl (fun acc b => acc ++ b.getD "") ""

/-- `ClaudeProvider.search` (`claude_provider.py`, lines 60-104).  When
`self.client` is `None` the attribute access raises inside the `try`, which
the `except` turns into a failed result. -/
def ClaudeProvider.search (p : ClaudeProvider) (backend : ClaudeBackend) (now : String)
    (query : String) (query_info : α) : SearchResult α :=
  if p.client then
    match backend ⟨p.model, p.max_tokens, p.web_search_tool_version, search_user_message query⟩ with
    | .ok blocks => standardize_result (extract_blocks_text blocks) query_info true none now
    | .error e => standardize_result "" query_info false (some e) now
  else
    standardize_result "" query_info false
      (some "'NoneType' object has no attribute 'messages'") now

/-- Instance attributes of `OpenRouterProvider`
(`openrouter_provider.py`, lines 24-49). -/
structure OpenRouterProvider where
  model : String
  max_tokens : Nat
  max_search_results : Nat
  client : Bool
deriving Repr, DecidableEq

/-- `OpenRouterProvider.__init__` (`openrouter_provider.py`, lines 24-49),
including the `:online` suffix repair. -/
def OpenRouterProvider.ofConfig (w : World) (config : Config) : OpenRouterProvider :=
  let oc := ((config.search_provider.getD SPSection.empty).openrouter).getD ⟨none, none, none⟩
  let model0 := oc.model.getD "openai/gpt-4o:online"
  { model := if strContains model0 ":online" then model0 else model0 ++ ":online"
    max_tokens := oc.max_tokens.getD 2000
    max_search_results := oc.max_search_results.getD 5
    client := optStrTruthy (w.env "OPENROUTER_API_KEY") && w.openaiAvailable }

/-- The request `OpenRouterProvider.search` sends through the SDK. -/
structure OpenRouterRequest where
  model : String
  max_tokens : Nat
  system : String
  user_message : String

/-- The OpenRouter API boundary: `response.choices[0].message.content`, or
the raised exception's message. -/
def OpenRouterBackend : Type := OpenRouterRequest → Except String String

/-- `OpenRouterProvider.search` (`openrouter_provider.py`, lines 75-119). -/
def OpenRouterProvider.search (p : OpenRouterProvider) (backend : OpenRouterBackend)
    (now : String) (query : String) (query_info : α) : SearchResult α :=
  if p.client then
    match backend ⟨p.model, p.max_tokens, venue_system_prompt, search_user_message query⟩ with
    | .ok content => standardize_result content query_info true none now
    | .error e => standardize_result "" query_info false (some e) now
  else
    standardize_result "" query_info false
      (some "'NoneType' object has no attribute 'chat'") now

/-- Instance attributes of `OllamaProvider` (`ollama_provider.py`, lines 24-38).
(`__init__` also exports `OLLAMA_HOST`; no claim depends on it.) -/
structure OllamaProvider where
  model : String
  base_url : String
  max_tokens : Nat
  enable_web_search : Bool
deriving Repr, DecidableEq

/-- `OllamaProvider.__init__` (`ollama_provider.py`, lines 24-38). -/
def OllamaProvider.ofConfig (config : Config) : OllamaProvider :=
  let oc := ((config.search_provider.getD SPSection.empty).ollama).getD ⟨none, none, none, none⟩
  { model := oc.model.getD "llama3.1:latest"
    base_url := oc.base_url.getD "http://localhost:11434"
    max_tokens := oc.max_tokens.getD 2000
    enable_web_search := oc.enable_web_search.getD true }

/-- The system prompt `OllamaProvider.search` sends
(`ollama_provider.py`, lines 83-93). -/
def ollama_system_prompt : String :=
  venue_system_prompt ++ "\n\nNote: If you need to search the web, indicate what searches would be helpful.\nIn production, web search would be performed via external tools."

/-- The user message `OllamaProvider.search` sends
(`ollama_provider.py`, lines 95-106). -/
def ollama_user_message (query : String) : String :=
  "Search for: " ++ query ++ "\n\nProvide a structured summary of venues that match this query with:\n1. Venue name\n2. City/Location\n3. Venue type (bar, restaurant, theater, etc.)\n4. Any booking/contact info\n5. Notable details (capacity, genres, etc.)\n\nAlso note any opportunities where venues are actively seeking musicians.\n\nBased on your knowledge, what information can you provide about venues matching this query?"

/-- The knowledge-only annotation appended to every successful Ollama result
(`ollama_provider.py`, lines 126-130). -/
def ollama_note : String :=
  "\n\n[Note: Ollama response based on training data. For real-time web search, use MCP provider with Ollama as LLM backend.]"

/-- The `response` dict of `ollama.chat`: `message` key, whose value has a
`content` key (`response.get("message", {}).get("content", "")`). -/
structure OllamaResponse where
  message : Option (Option String)
deriving Repr, DecidableEq

/-- `response.get("message", {}).get("content", "")`
(`ollama_provider.py`, line 122). -/
def ollama_extract (resp : OllamaResponse) : String :=
  match resp.message with
  | none => ""
  | some c => c.getD ""

/-- The request `OllamaProvider.search` sends through `ollama.chat`. -/
structure OllamaRequest where
  model : String
  num_predict : Nat
  system : String
  user_message : String

/-- The Ollama API boundary: the chat response dict, or the raised
exception's message. -/
def OllamaBackend : Type := OllamaRequest → Except String OllamaResponse

/-- `OllamaProvider.search` (`ollama_provider.py`, lines 75-136).  The call
goes through the module-level `ollama` object, so `ollamaAvailable` says
whether `import ollama` succeeded; when it did not, the attribute access on
`None` raises inside the `try`. -/
def OllamaProvider.search (p : OllamaProvider) (ollamaAvailable : Bool)
    (backend : OllamaBackend) (now : String) (query : String) (query_info : α) :
    SearchResult α :=
  if ollamaAvailable then
    match backend ⟨p.model, p.max_tokens, ollama_system_prompt, ollama_user_message query⟩ with
    | .ok resp => standardize_result (ollama_extract resp ++ ollama_note) query_info true none now
    | .error e => standardize_result "" query_info false (some e) now
  else
    standardize_result "" query_info false
      (some "'NoneType' object has no attribute 'chat'") now

/-- `MCPProvider._detect_llm_type` (`mcp_provider.py`, lines 56-65). -/
def detect_llm_type (model : String) : String :=
  if strContains (pyLower model) "claude" then "claude"
  else if strContains (pyLower model) "gpt" || strContains (pyLower model) "openai" then "openai"
  else if strContains (pyLower model) "gemini" || strContains (pyLower model) "google" then "openai"
  else "claude"

/-- Instance attributes of `MCPProvider` (`mcp_provider.py`, lines 40-54).
`mcp_client` and `llm_client` start as `None` and are lazily assigned during
`search`; the handles themselves are opaque here. -/
structure MCPProvider where
  server_type : String
  model : String
  max_results : Nat
  max_tokens : Nat
  mcp_client : Option Unit
  llm_client : Option Unit
  llm_type : String
deriving Repr, DecidableEq

/-- `MCPProvider.__init__` (`mcp_provider.py`, lines 40-54). -/
def MCPProvider.ofConfig (config : Config) : MCPProvider :=
  let mc := ((config.search_provider.getD SPSection.empty).mcp).getD ⟨none, none, none, none⟩
  { server_type := mc.server_type.getD "websearch-mcp"
    model := mc.model.getD "claude-sonnet-4-20250514"
    max_results := mc.max_results.getD 10
    max_tokens := mc.max_tokens.getD 2000
    mcp_client := none
    llm_client := none
    llm_type := detect_llm_type (mc.model.getD "claude-sonnet-4-20250514") }

/-- The failure-prone steps of the MCP provider: client construction
(`_init_mcp_client`, `_init_llm_client`, which raise on missing packages or
bad configuration) and the LLM request itself.  The Claude/OpenAI messaging
difference inside `_analyze_with_llm` is abstracted into `llm_call`. -/
structure MCPBackend where
  init_mcp : Except String Unit
  init_llm : Except String Unit
  llm_call : String → Except String String

/-- The placeholder search text built by `_perform_web_search`
(`mcp_provider.py`, lines 168-174). -/
def mcp_simulated_results (query : String) : String :=
  "[Simulated MCP search results for: " ++ query ++ "]\n" ++
    "Note: Full MCP integration requires MCP server to be running.\n" ++
    "For production use, ensure MCP server is properly configured."

/-- The user message `_analyze_with_llm` builds
(`mcp_provider.py`, lines 197-209). -/
def mcp_user_message (query search_results : String) : String :=
  "Based on these search results for: " ++ query ++ "\n\nSearch Results:\n" ++
    search_results ++ "\n\nProvide a structured summary of venues found with:\n1. Venue name\n2. City/Location\n3. Venue type (bar, restaurant, theater, etc.)\n4. Any booking/contact info found\n5. Notable details (capacity, genres, etc.)\n\nAlso note any opportunities where venues are actively seeking musicians."

/-- `MCPProvider._perform_web_search` (`mcp_provider.py`, lines 158-179):
lazily initialize `self.mcp_client`; an exception during initialization is
caught and turned into an error string (the provider is left unchanged);
otherwise the simulated search text is produced. -/
def MCPProvider.perform_web_search (p : MCPProvider) (b : MCPBackend) (query : String) :
    String × MCPProvider :=
  match p.mcp_client with
  | some _ => (mcp_simulated_results query, p)
  | none =>
    match b.init_mcp with
    | .error e => ("Error performing MCP search: " ++ e, p)
    | .ok c => (mcp_simulated_results query, { p with mcp_client := some c })

/-- `MCPProvider._analyze_with_llm` (`mcp_provider.py`, lines 181-238):
lazily initialize `self.llm_client`, then call the LLM; every exception is
caught and turned into an error string. -/
def MCPProvider.analyze_with_llm (p : MCPProvider) (b : MCPBackend)
    (query search_results : String) : String × MCPProvider :=
  let step : Except String MCPProvider :=
    match p.llm_client with
    | some _ => .ok p
    | none =>
      match b.init_llm with
      | .error e => .error e
      | .ok c => .ok { p with llm_client := some c }
  match step with
  | .error e => ("Error analyzing with LLM: " ++ e, p)
  | .ok p1 =>
    match b.llm_call (mcp_user_message query search_results) with
    | .ok text => (text, p1)
    | .error e => ("Error analyzing with LLM: " ++ e, p1)

/-- `MCPProvider.search` (`mcp_provider.py`, lines 240-261).  Both helpers
return normally (their failures come back as error strings), so the outer
`except` branch of `search` is unreachable and the result is always built
with `success=True`. -/
def MCPProvider.search (p : MCPProvider) (b : MCPBackend) (now : String)
    (query : String) (query_info : α) : SearchResult α × MCPProvider :=
  let sr := p.perform_web_search b query
  let an := sr.2.analyze_with_llm b query sr.1
  (standardize_result an.1 query_info true none now, an.2)

/-- A constructed provider instance, as returned by the factory. -/
inductive ProviderInstance where
  | claude (p : ClaudeProvider)
  | openrouter (p : OpenRouterProvider)
  | ollama (p : OllamaProvider)
  | mcp (p : MCPProvider)
deriving Repr, DecidableEq

/-- The keys of the `PROVIDERS` registry dict (`factory.py`, lines 13-18),
in insertion order. -/
def PROVIDERS_keys : List String := ["claude", "openrouter", "ollama", "mcp"]

/-- `PROVIDERS[provider_name](config)`: look the name up in the registry and
instantiate the matching class. -/
def instantiate_provider (name : String) (w : World) (config : Config) :
    Option ProviderInstance :=
  if name = "claude" then some (.claude (ClaudeProvider.ofConfig w config))
  else if name = "openrouter" then some (.openrouter (OpenRouterProvider.ofConfig w config))
  else if name = "ollama" then some (.ollama (OllamaProvider.ofConfig config))
  else if name = "mcp" then some (.mcp (MCPProvider.ofConfig config))
  else none

/-- `create_provider` (`factory.py`, lines 21-44): normalize the name with
`.lower().strip()`, construct the registered class, or raise `ValueError`
with the offending name and the joined registry keys. -/
def create_provider (provider_name : String) (w : World) (config : Config) :
    Except String ProviderInstance :=
  let n := pyStrip (pyLower provider_name)
  match instantiate_provider n w config with
  | some p => .ok p
  | none => .error ("Unknown provider: '" ++ n ++ "'. Available providers: " ++
      String.intercalate ", " PROVIDERS_keys)

/-- C10: for every standardized SearchResult, the `error` field is present
iff the result is a failure and the supplied error message is a non-empty
string; a failed result built with an empty or absent message has no `error`
field; and every result carries the `query_info`, `text`, `success` and
`timestamp` fields as supplied. -/
theorem C10_standardize_error_presence (α : Type) (raw : String) (qinfo : α)
    (success : Bool) (error : Option String) (now : String) :
    ((standardize_result raw qinfo success error now).error ≠ none ↔
      success = false ∧ ∃ s, error = some s ∧ s ≠ "") ∧
    ((standardize_result raw qinfo success error now).error = none ∨
      (standardize_result raw qinfo success error now).error = error) ∧
    (standardize_result raw qinfo false (some "") now).error = none ∧
    (standardize_result raw qinfo false none now).error = none ∧
    (standardize_result raw qinfo success error now).query_info = qinfo ∧
    (standardize_result raw qinfo success error now).text = raw ∧
    (standardize_result raw qinfo success error now).success = success ∧
    (standardize_result raw qinfo success error now).timestamp = now := by
  refine ⟨?_, ?_, by simp [standardize_result, optStrTruthy], by simp [standardize_result, optStrTruthy], rfl, rfl, rfl, rfl⟩
  · cases success with
    | true => simp [standardize_result, optStrTruthy]
    | false =>
      cases error with
      | none => simp [standardize_result, optStrTruthy]
      | some s =>
        by_cases hs : s = "" <;>
          simp [standardize_result, optStrTruthy, hs]
  · cases success with
    | true => simp [standardize_result, optStrTruthy]
    | false =>
      cases error with
      | none => simp [standardize_result, optStrTruthy]
      | some s =>
        by_cases hs : s = "" <;>
          simp [standardize_result, optStrTruthy, hs]

/-- The Hudson Valley example configuration from the spec's scenario. -/
def cfg_C5 : Config :=
  { search_templates :=
      [("new_venues", ["{city} new venue"]), ("booking_opportunities", ["{city} booking"])]
    regions :=
      [("hudson_valley", ⟨some "Hudson Valley", some 1, ["Kingston", "Woodstock", "Albany", "Troy"]⟩)]
    search_provider := none }

/-- C5: for the one-region Hudson Valley configuration with one template per
category and `max=10`, the builder emits exactly 6 queries (3 cities times 2
categories), every query has priority 1, the covered cities are exactly
Kingston, Woodstock and Albany in generation order, and Troy is excluded by
the 3-city cap. -/
theorem C5_hudson_valley_scenario :
    (build_search_queries cfg_C5 10).length = 6 ∧
    (build_search_queries cfg_C5 10).map Query.priority = [1, 1, 1, 1, 1, 1] ∧
    (build_search_queries cfg_C5 10).map Query.city =
      ["Kingston", "Kingston", "Woodstock", "Woodstock", "Albany", "Albany"] ∧
    (build_search_queries cfg_C5 10).map Query.type =
      ["new_venues", "booking_opportunities", "new_venues", "booking_opportunities",
        "new_venues", "booking_opportunities"] ∧
    "Troy" ∉ (build_search_queries cfg_C5 10).map Query.city := by
  decide

/-- The appending loop of `execute_searches` runs every query through the
provider, in order. -/
theorem search_loop_eq_map (p : ExecProvider Query) (qs : List Query)
    (acc : List (SearchResult Query)) :
    search_loop p qs acc = acc ++ qs.map (fun q => p.search q.query q) := by
  induction qs generalizing acc with
  | nil => simp [search_loop]
  | cons q qs ih => simp [search_loop, ih]

/-- `sum(1 for r in results if r["success"])` counts the successful results. -/
theorem foldl_success_count (rs : List (SearchResult Query)) (n : Nat) :
    rs.foldl (fun acc r => acc + (if r.success then 1 else 0)) n =
      n + rs.countP (fun r => r.success) := by
  induction rs generalizing n with
  | nil => simp
  | cons r rs ih =>
    cases h : r.success <;>
      simp [List.countP_cons, h, ih, Nat.add_assoc, Nat.add_comm]

/-- C3: for every configuration, query cap and provider, the executed batch
holds exactly one SearchResult per query, in order (the i-th result is the
provider's answer to the i-th query), `queries_run` equals the number of
results, and the recorded success count equals the number of results whose
success flag is true. -/
theorem C3_execute_searches_batch_shape (provider : ExecProvider Query)
    (config : Config) (max_queries : Nat) (now : String) :
    (execute_searches provider config max_queries now).results.length =
      (execute_searches provider config max_queries now).queries_run ∧
    (execute_searches provider config max_queries now).successful =
      (execute_searches provider config max_queries now).results.countP
        (fun r => r.success) ∧
    (execute_searches provider config max_queries now).results =
      (build_search_queries config max_queries).map (fun q => provider.search q.query q) := by
  refine ⟨?_, ?_, ?_⟩
  · simp [execute_searches, search_loop_eq_map]
  · simp [execute_searches, foldl_success_count]
  · simp [execute_searches, search_loop_eq_map]

/-- C6: whenever the builder can produce `M ≥ K` queries, requesting `max=K`
yields exactly `K` queries, non-decreasing in priority, every kept query has
priority at most that of every truncated one (so the K lowest-priority-value
entries are taken, the kept and dropped parts together being a permutation of
the generated list), and within each priority value the emitted queries are
an initial segment of the generated order (stability). -/
theorem C6_truncation_takes_lowest (config : Config) (K : Nat)
    (hK : K ≤ (build_queries_raw config).length) :
    (build_search_queries config K).length = K ∧
    (build_search_queries config K).Pairwise qle ∧
    (∀ a ∈ build_search_queries config K,
      ∀ b ∈ (sortByPriority (build_queries_raw config)).drop K, a.priority ≤ b.priority) ∧
    (build_search_queries config K ++ (sortByPriority (build_queries_raw config)).drop K).Perm
      (build_queries_raw config) ∧
    (∀ p : Int, ∃ t, (build_queries_raw config).filter (fun q => q.priority = p) =
      (build_search_queries config K).filter (fun q => q.priority = p) ++ t) := by
  have hbq : build_search_queries config K =
      (sortByPriority (build_queries_raw config)).take K := rfl
  have hperm : (sortByPriority (build_queries_raw config)).Perm (build_queries_raw config) :=
    List.perm_insertionSort qle (build_queries_raw config)
  have hsorted : (sortByPriority (build_queries_raw config)).Pairwise qle :=
    List.sorted_insertionSort qle (build_queries_raw config)
  refine ⟨?_, ?_, ?_, ?_, ?_⟩
  · rw [hbq, List.length_take, hperm.length_eq]
    exact Nat.min_eq_left hK
  · rw [hbq]
    exact hsorted.sublist (List.take_sublist K _)
  · intro a ha b hb
    rw [hbq] at ha
    have h := hsorted
    rw [← List.take_append_drop K (sortByPriority (build_queries_raw config))] at h
    exact (List.pairwise_append.mp h).2.2 a ha b hb
  · rw [hbq, List.take_append_drop]
    exact hperm
  · intro p
    have hfs : List.Sublist ((build_queries_raw config).filter (fun q => q.priority = p))
        (sortByPriority (build_queries_raw config)) := by
      apply List.sublist_insertionSort
      · apply List.pairwise_of_forall_mem_list
        intro a ha b hb
        have ha' : a.priority = p := by
          simpa using (List.mem_filter.mp ha).2
        have hb' : b.priority = p := by
          simpa using (List.mem_filter.mp hb).2
        show a.priority ≤ b.priority
        rw [ha', hb']
      · exact List.filter_sublist _
    have h2 : List.Sublist ((build_queries_raw config).filter (fun q => q.priority = p))
        ((sortByPriority (build_queries_raw config)).filter (fun q => q.priority = p)) := by
      have h := hfs.filter (fun q => decide (q.priority = p))
      rwa [List.filter_eq_self.mpr (fun a ha => (List.mem_filter.mp ha).2)] at h
    have h3 : ((sortByPriority (build_queries_raw config)).filter
        (fun q => q.priority = p)).Perm
        ((build_queries_raw config).filter (fun q => q.priority = p)) :=
      hperm.filter _
    have h4 : (build_queries_raw config).filter (fun q => q.priority = p) =
        (sortByPriority (build_queries_raw config)).filter (fun q => q.priority = p) :=
      h2.eq_of_length h3.length_eq.symm
    refine ⟨((sortByPriority (build_queries_raw config)).drop K).filter
      (fun q => q.priority = p), ?_⟩
    rw [h4, hbq, ← List.filter_append, List.take_append_drop]

/-- Witness for C6: the Hudson Valley configuration can produce 6 queries,
and requesting 4 exhibits the truncation property. -/
theorem C6_truncation_takes_lowest_witness :
    4 ≤ (build_queries_raw cfg_C5).length ∧
    ((build_search_queries cfg_C5 4).length = 4 ∧
    (build_search_queries cfg_C5 4).Pairwise qle ∧
    (∀ a ∈ build_search_queries cfg_C5 4,
      ∀ b ∈ (sortByPriority (build_queries_raw cfg_C5)).drop 4, a.priority ≤ b.priority) ∧
    (build_search_queries cfg_C5 4 ++ (sortByPriority (build_queries_raw cfg_C5)).drop 4).Perm
      (build_queries_raw cfg_C5) ∧
    (∀ p : Int, ∃ t, (build_queries_raw cfg_C5).filter (fun q => q.priority = p) =
      (build_search_queries cfg_C5 4).filter (fun q => q.priority = p) ++ t)) :=
  ⟨by decide, C6_truncation_takes_lowest cfg_C5 4 (by decide)⟩

/-- A prefix occurrence is an occurrence. -/
theorem charsContain_of_prefix (l sub : List Char) (h : sub <+: l) :
    charsContain l sub = true := by
  cases l with
  | nil =>
    have hs : sub = [] := List.prefix_nil.mp h
    simp [hs, charsContain]
  | cons c t =>
    simp only [charsContain, Bool.or_eq_true]
    exact Or.inl (List.isPrefixOf_iff_prefix.mpr h)

/-- An occurrence survives prepending. -/
theorem charsContain_append_right (xs ys sub : List Char)
    (h : charsContain ys sub = true) : charsContain (xs ++ ys) sub = true := by
  induction xs with
  | nil => simpa using h
  | cons x xs ih =>
    simp only [List.cons_append, charsContain, Bool.or_eq_true]
    exact Or.inr ih

/-- An occurrence in the right part survives string concatenation. -/
theorem strContains_append_right (a b pat : String) (h : strContains b pat = true) :
    strContains (a ++ b) pat = true := by
  unfold strContains at h ⊢
  rw [String.data_append]
  exact charsContain_append_right _ _ _ h

/-- A string occurs in itself followed by anything. -/
theorem strContains_append_self (n b : String) : strContains (n ++ b) n = true := by
  unfold strContains
  rw [String.data_append]
  exact charsContain_of_prefix _ _ (List.prefix_append _ _)

/-- C7: `create_provider` matches names case-insensitively after trimming
surrounding whitespace (two names with the same normalization are treated
identically), returns a constructed provider whenever the normalized name is
a registry key, and otherwise fails with an error whose message names the
offending (normalized) value and enumerates every valid provider name. -/
theorem C7_create_provider_contract (name other : String) (w : World) (config : Config) :
    (pyStrip (pyLower name) = pyStrip (pyLower other) →
      create_provider name w config = create_provider other w config) ∧
    (pyStrip (pyLower name) ∈ PROVIDERS_keys →
      ∃ p, create_provider name w config = Except.ok p) ∧
    (pyStrip (pyLower name) ∉ PROVIDERS_keys →
      create_provider name w config = Except.error
        ("Unknown provider: '" ++ pyStrip (pyLower name) ++
          "'. Available providers: claude, openrouter, ollama, mcp")) ∧
    (∀ msg, create_provider name w config = Except.error msg →
      strContains msg (pyStrip (pyLower name)) = true ∧
      ∀ v ∈ PROVIDERS_keys, strContains msg v = true) := by
  refine ⟨?_, ?_, ?_, ?_⟩
  · intro h
    simp only [create_provider, h]
  · intro h
    simp only [PROVIDERS_keys, List.mem_cons, List.not_mem_nil, or_false] at h
    rcases h with h | h | h | h <;>
      · simp only [create_provider, h, instantiate_provider]
        exact ⟨_, rfl⟩
  · intro h
    simp only [PROVIDERS_keys, List.mem_cons, List.not_mem_nil, or_false, not_or] at h
    obtain ⟨h1, h2, h3, h4⟩ := h
    simp only [create_provider, instantiate_provider, h1, h2, h3, h4, if_false]
    rw [String.append_assoc]
    congr 1
  · intro msg hmsg
    have hmsg' : msg = "Unknown provider: '" ++ pyStrip (pyLower name) ++
        "'. Available providers: " ++ String.intercalate ", " PROVIDERS_keys := by
      by_cases hc : (instantiate_provider (pyStrip (pyLower name)) w config).isSome
      · obtain ⟨p, hp⟩ := Option.isSome_iff_exists.mp hc
        simp [create_provider, hp] at hmsg
      · have hn : instantiate_provider (pyStrip (pyLower name)) w config = none :=
          Option.not_isSome_iff_eq_none.mp hc
        simp only [create_provider, hn] at hmsg
        exact (Except.error.injEq _ _).mp hmsg |>.symm
    subst hmsg'
    constructor
    · rw [String.append_assoc, String.append_assoc]
      exact strContains_append_right _ _ _ (strContains_append_self _ _)
    · intro v hv
      rw [String.append_assoc]
      apply strContains_append_right
      have hX : "'. Available providers: " ++ String.intercalate ", " PROVIDERS_keys =
          "'. Available providers: claude, openrouter, ollama, mcp" := by decide
      rw [hX]
      simp only [PROVIDERS_keys, List.mem_cons, List.not_mem_nil, or_false] at hv
      rcases hv with h | h | h | h <;> subst h <;> decide

/-- A test world: Anthropic key set, every optional SDK importable. -/
def worldTest : World :=
  { env := fun k => if k = "ANTHROPIC_API_KEY" then some "sk-ant-test" else none
    anthropicAvailable := true
    openaiAvailable := true
    ollamaAvailable := true
    mcpAvailable := true }

/-- A minimal configuration with every section absent. -/
def cfgEmpty : Config :=
  { search_templates := [], regions := [], search_provider := none }

/-- Witness for C7: `" Claude "` normalizes to the registered `"claude"` and
constructs, while `" bogus "` fails with the enumerating error message. -/
theorem C7_create_provider_contract_witness :
    create_provider " Claude " worldTest cfgEmpty = create_provider "claude" worldTest cfgEmpty ∧
    (∃ p, create_provider " Claude " worldTest cfgEmpty = Except.ok p) ∧
    create_provider " bogus " worldTest cfgEmpty = Except.error
      ("Unknown provider: '" ++ pyStrip (pyLower " bogus ") ++
        "'. Available providers: claude, openrouter, ollama, mcp") ∧
    strContains ("Unknown provider: '" ++ pyStrip (pyLower " bogus ") ++
      "'. Available providers: claude, openrouter, ollama, mcp")
      (pyStrip (pyLower " bogus ")) = true ∧
    ∀ v ∈ PROVIDERS_keys,
      strContains ("Unknown provider: '" ++ pyStrip (pyLower " bogus ") ++
        "'. Available providers: claude, openrouter, ollama, mcp") v = true :=
  ⟨(C7_create_provider_contract " Claude " "claude" worldTest cfgEmpty).1 (by decide),
    (C7_create_provider_contract " Claude " "claude" worldTest cfgEmpty).2.1 (by decide),
    (C7_create_provider_contract " bogus " "" worldTest cfgEmpty).2.2.1 (by decide),
    ((C7_create_provider_contract " bogus " "" worldTest cfgEmpty).2.2.2 _
      ((C7_create_provider_contract " bogus " "" worldTest cfgEmpty).2.2.1 (by decide))).1,
    ((C7_create_provider_contract " bogus " "" worldTest cfgEmpty).2.2.2 _
      ((C7_create_provider_contract " bogus " "" worldTest cfgEmpty).2.2.1 (by decide))).2⟩

/-- C8: every successful Ollama search returns a well-formed result —
success flag set, the supplied timestamp and query metadata, no error field —
whose text is the backend content with the knowledge-only annotation
appended, so the text always carries the marker distinguishing it from live
web-search output. -/
theorem C8_ollama_knowledge_annotation (α : Type) (p : OllamaProvider)
    (resp : OllamaResponse) (now query : String) (qi : α) :
    (p.search true (fun _ => Except.ok resp) now query qi).success = true ∧
    (p.search true (fun _ => Except.ok resp) now query qi).timestamp = now ∧
    (p.search true (fun _ => Except.ok resp) now query qi).query_info = qi ∧
    (p.search true (fun _ => Except.ok resp) now query qi).error = none ∧
    (p.search true (fun _ => Except.ok resp) now query qi).text =
      ollama_extract resp ++ ollama_note ∧
    strContains (p.search true (fun _ => Except.ok resp) now query qi).text
      "[Note: Ollama response based on training data. For real-time web search, use MCP provider with Ollama as LLM backend.]" = true := by
  refine ⟨rfl, rfl, rfl, rfl, rfl, ?_⟩
  show strContains (ollama_extract resp ++ ollama_note) _ = true
  exact strContains_append_right _ _ _ (by decide)

/-- An MCP provider as freshly constructed (clients not yet initialized). -/
def mcpTest : MCPProvider :=
  { server_type := "websearch-mcp"
    model := "claude-sonnet-4-20250514"
    max_results := 10
    max_tokens := 2000
    mcp_client := none
    llm_client := none
    llm_type := "claude" }

/-- An MCP backend in which both client constructions fail (e.g. the `mcp`
package is missing and the LLM client cannot be built). -/
def mcpFailingBackend : MCPBackend :=
  { init_mcp := Except.error "MCP package not available"
    init_llm := Except.error "Connection refused"
    llm_call := fun _ => Except.error "unused" }

/-- Counterexample to C4 as stated: on the MCP provider a backend failure is
not converted into a failed SearchResult — both internal steps fail, yet the
returned result has `success = true`, no error field, and the failure text
embedded in the result body. -/
theorem C4_counterexample_mcp_failure_is_success :
    ((mcpTest.search mcpFailingBackend "2026-10-12T00:00:00"
      "Kingston NY live music venues" "adhoc").1).success = true ∧
    ((mcpTest.search mcpFailingBackend "2026-10-12T00:00:00"
      "Kingston NY live music venues" "adhoc").1).error = none ∧
    ((mcpTest.search mcpFailingBackend "2026-10-12T00:00:00"
      "Kingston NY live music venues" "adhoc").1).text =
      "Error analyzing with LLM: Connection refused" := by
  decide

/-- C4 amended: search never raises for any provider variant.  For the
Claude, OpenRouter and Ollama providers a backend failure is converted into a
SearchResult with `success = false`, empty text, and the backend's error
message recorded when it is non-empty (omitted when empty).  The MCP
provider also never raises, but it always reports `success = true` and no
error field: its internal web-search/LLM failures surface only as error text
inside the result body. -/
theorem C4_amended_search_error_conversion (α : Type) (now query e : String) (qi : α) :
    (∀ p : ClaudeProvider, p.client = true →
      (p.search (fun _ => Except.error e) now query qi).success = false ∧
      (p.search (fun _ => Except.error e) now query qi).text = "" ∧
      (p.search (fun _ => Except.error e) now query qi).error =
        (if e = "" then none else some e)) ∧
    (∀ p : OpenRouterProvider, p.client = true →
      (p.search (fun _ => Except.error e) now query qi).success = false ∧
      (p.search (fun _ => Except.error e) now query qi).text = "" ∧
      (p.search (fun _ => Except.error e) now query qi).error =
        (if e = "" then none else some e)) ∧
    (∀ p : OllamaProvider,
      (p.search true (fun _ => Except.error e) now query qi).success = false ∧
      (p.search true (fun _ => Except.error e) now query qi).text = "" ∧
      (p.search true (fun _ => Except.error e) now query qi).error =
        (if e = "" then none else some e)) ∧
    (∀ (p : MCPProvider) (b : MCPBackend),
      ((p.search b now query qi).1).success = true ∧
      ((p.search b now query qi).1).error = none) := by
  refine ⟨?_, ?_, ?_, ?_⟩
  · intro p h
    by_cases he : e = "" <;>
      simp [ClaudeProvider.search, h, standardize_result, optStrTruthy, he]
  · intro p h
    by_cases he : e = "" <;>
      simp [OpenRouterProvider.search, h, standardize_result, optStrTruthy, he]
  · intro p
    by_cases he : e = "" <;>
      simp [OllamaProvider.search, standardize_result, optStrTruthy, he]
  · intro p b
    exact ⟨rfl, rfl⟩

/-- A Claude provider with an initialized client. -/
def claudeTest : ClaudeProvider :=
  { model := "claude-sonnet-4-20250514"
    max_tokens := 2000
    web_search_tool_version := "web_search_20250305"
    client := true }

/-- An OpenRouter provider with an initialized client. -/
def openrouterTest : OpenRouterProvider :=
  { model := "openai/gpt-4o:online"
    max_tokens := 2000
    max_search_results := 5
    client := true }

/-- An Ollama provider with default settings. -/
def ollamaTest : OllamaProvider :=
  { model := "llama3.1:latest"
    base_url := "http://localhost:11434"
    max_tokens := 2000
    enable_web_search := true }

/-- Witness for the amended C4 at concrete providers and a concrete failing
backend. -/
theorem C4_amended_search_error_conversion_witness :
    claudeTest.client = true ∧
    ((claudeTest.search (fun _ => Except.error "api error") "t0" "q0" "info").success = false ∧
      (claudeTest.search (fun _ => Except.error "api error") "t0" "q0" "info").text = "" ∧
      (claudeTest.search (fun _ => Except.error "api error") "t0" "q0" "info").error =
        (if "api error" = "" then none else some "api error")) ∧
    openrouterTest.client = true ∧
    ((openrouterTest.search (fun _ => Except.error "api error") "t0" "q0" "info").success = false ∧
      (openrouterTest.search (fun _ => Except.error "api error") "t0" "q0" "info").text = "" ∧
      (openrouterTest.search (fun _ => Except.error "api error") "t0" "q0" "info").error =
        (if "api error" = "" then none else some "api error")) ∧
    ((ollamaTest.search true (fun _ => Except.error "api error") "t0" "q0" "info").success = false ∧
      (ollamaTest.search true (fun _ => Except.error "api error") "t0" "q0" "info").text = "" ∧
      (ollamaTest.search true (fun _ => Except.error "api error") "t0" "q0" "info").error =
        (if "api error" = "" then none else some "api error")) ∧
    (((mcpTest.search mcpFailingBackend "t0" "q0" "info").1).success = true ∧
      ((mcpTest.search mcpFailingBackend "t0" "q0" "info").1).error = none) :=
  ⟨rfl,
    (C4_amended_search_error_conversion String "t0" "q0" "api error" "info").1 claudeTest rfl,
    rfl,
    (C4_amended_search_error_conversion String "t0" "q0" "api error" "info").2.1 openrouterTest rfl,
    (C4_amended_search_error_conversion String "t0" "q0" "api error" "info").2.2.1 ollamaTest,
    (C4_amended_search_error_conversion String "t0" "q0" "api error" "info").2.2.2 mcpTest mcpFailingBackend⟩

/-- `_perform_web_search` either leaves the provider unchanged or fills a
previously empty `mcp_client`. -/
theorem MCP_perform_frame (p : MCPProvider) (b : MCPBackend) (q : String) :
    (p.perform_web_search b q).2 = p ∨
    (p.mcp_client = none ∧
      (p.perform_web_search b q).2 = { p with mcp_client := some () }) := by
  rcases hm : p.mcp_client with _ | u
  · rcases hi : b.init_mcp with e | u2
    · left
      simp [MCPProvider.perform_web_search, hm, hi]
    · right
      cases u2
      simp [MCPProvider.perform_web_search, hm, hi]
  · left
    simp [MCPProvider.perform_web_search, hm]

/-- `_analyze_with_llm` either leaves the provider unchanged or fills a
previously empty `llm_client`. -/
theorem MCP_analyze_frame (p : MCPProvider) (b : MCPBackend) (q sr : String) :
    (p.analyze_with_llm b q sr).2 = p ∨
    (p.llm_client = none ∧
      (p.analyze_with_llm b q sr).2 = { p with llm_client := some () }) := by
  rcases hl : p.llm_client with _ | u
  · rcases hj : b.init_llm with e | u2
    · left
      simp [MCPProvider.analyze_with_llm, hl, hj]
    · right
      cases u2
      rcases hc : b.llm_call (mcp_user_message q sr) with e2 | t <;>
        simp [MCPProvider.analyze_with_llm, hl, hj, hc]
  · rcases hc : b.llm_call (mcp_user_message q sr) with e2 | t <;>
      · left
        simp [MCPProvider.analyze_with_llm, hl, hc]

/-- C9 amended: `search` never changes a provider's configuration fields
(server type, model, limits, detected LLM type), and never changes an
already-initialized client handle; the only mutation is the MCP provider's
lazy first-use initialization of `mcp_client`/`llm_client`.  The Claude,
OpenRouter and Ollama providers read but never write their state, which the
embedding reflects by their `search` returning only a result. -/
theorem C9_amended_search_frame (α : Type) (p : MCPProvider) (b : MCPBackend)
    (now query : String) (qi : α) :
    ((p.search b now query qi).2).server_type = p.server_type ∧
    ((p.search b now query qi).2).model = p.model ∧
    ((p.search b now query qi).2).max_results = p.max_results ∧
    ((p.search b now query qi).2).max_tokens = p.max_tokens ∧
    ((p.search b now query qi).2).llm_type = p.llm_type ∧
    (p.mcp_client.isSome = true → ((p.search b now query qi).2).mcp_client = p.mcp_client) ∧
    (p.llm_client.isSome = true → ((p.search b now query qi).2).llm_client = p.llm_client) := by
  have h1 := MCP_perform_frame p b query
  have h2 := MCP_analyze_frame (p.perform_web_search b query).2 b query
    (p.perform_web_search b query).1
  have hsearch : (p.search b now query qi).2 =
      ((p.perform_web_search b query).2.analyze_with_llm b query
        (p.perform_web_search b query).1).2 := rfl
  rw [hsearch]
  rcases h2 with h2 | ⟨hl, h2⟩ <;> rcases h1 with h1 | ⟨hm, h1⟩
  · rw [h2, h1]
    simp
  · rw [h2, h1]
    simp [hm]
  · rw [h1] at hl
    rw [h2, h1]
    simp [hl]
  · rw [h1] at hl
    simp only [] at hl
    rw [h2, h1]
    simp [hl, hm]

/-- An MCP backend in which every step succeeds. -/
def mcpOkBackend : MCPBackend :=
  { init_mcp := Except.ok ()
    init_llm := Except.ok ()
    llm_call := fun _ => Except.ok "venue analysis" }

/-- An MCP provider whose clients are already initialized. -/
def mcpWarm : MCPProvider :=
  { server_type := "websearch-mcp"
    model := "claude-sonnet-4-20250514"
    max_results := 10
    max_tokens := 2000
    mcp_client := some ()
    llm_client := some ()
    llm_type := "claude" }

/-- Witness for the amended C9: on a provider with initialized clients,
`search` changes neither handle. -/
theorem C9_amended_search_frame_witness :
    mcpWarm.mcp_client.isSome = true ∧
    mcpWarm.llm_client.isSome = true ∧
    ((mcpWarm.search mcpOkBackend "t0" "q0" "info").2).mcp_client = mcpWarm.mcp_client ∧
    ((mcpWarm.search mcpOkBackend "t0" "q0" "info").2).llm_client = mcpWarm.llm_client :=
  ⟨rfl, rfl,
    (C9_amended_search_frame String mcpWarm mcpOkBackend "t0" "q0" "info").2.2.2.2.2.1 rfl,
    (C9_amended_search_frame String mcpWarm mcpOkBackend "t0" "q0" "info").2.2.2.2.2.2 rfl⟩

/-- Counterexample to C9 as stated: on a freshly constructed MCP provider a
single `search` call flips both client fields from `None` to initialized
handles, so not all provider fields are identical before and after. -/
theorem C9_counterexample_mcp_lazy_init_mutation :
    mcpTest.mcp_client = none ∧
    mcpTest.llm_client = none ∧
    ((mcpTest.search mcpOkBackend "t0" "q0" "info").2).mcp_client = some () ∧
    ((mcpTest.search mcpOkBackend "t0" "q0" "info").2).llm_client = some () := by
  decide

/-- If every candidate in the list fails construction or validation, the
candidate loop returns no batch and performs no search. -/
theorem run_candidates_all_fail (env : String → Candidate) (config : Config)
    (maxq : Nat) (now : String) (names : List String)
    (h : ∀ n ∈ names, (env n).constructs = false ∨ (env n).validates = false) :
    (run_candidates env config maxq now names).2 = none ∧
    ∀ n q, Event.search n q ∉ (run_candidates env config maxq now names).1 := by
  induction names with
  | nil => simp [run_candidates]
  | cons m rest ih =>
    have hm := h m (List.mem_cons_self m rest)
    have hrest := ih (fun n hn => h n (List.mem_cons_of_mem m hn))
    by_cases hc : (env m).constructs = true
    · have hv : (env m).validates = false := by
        rcases hm with h' | h'
        · rw [h'] at hc
          cases hc
        · exact h'
      refine ⟨?_, ?_⟩
      · simp [run_candidates, hc, hv, hrest.1]
      · intro n q
        simp [run_candidates, hc, hv, List.mem_cons, hrest.2 n q]
    · have hc' : (env m).constructs = false := Bool.not_eq_true (env m).constructs ▸ hc
      refine ⟨?_, ?_⟩
      · simp [run_candidates, hc', hrest.1]
      · intro n q
        simp [run_candidates, hc', List.mem_cons, hrest.2 n q]

/-- Every search event in a candidate-loop trace is preceded by a successful
validation event for the same provider. -/
theorem run_candidates_validate_before_search (env : String → Candidate)
    (config : Config) (maxq : Nat) (now : String) (names : List String) :
    ∀ n q, Event.search n q ∈ (run_candidates env config maxq now names).1 →
      ∃ pre post, (run_candidates env config maxq now names).1 =
        pre ++ Event.validate n true :: post ∧ Event.search n q ∈ post := by
  induction names with
  | nil =>
    intro n q h
    simp [run_candidates] at h
  | cons m rest ih =>
    intro n q h
    by_cases hc : (env m).constructs = true
    · by_cases hv : (env m).validates = true
      · simp only [run_candidates, hc, hv, if_true, List.mem_cons] at h
        rcases h with h | h | h
        · cases h
        · cases h
        · obtain ⟨a, ha, heq⟩ := List.mem_map.mp h
          injection heq with h1 h2
          subst h1
          refine ⟨[Event.construct m true],
            (build_search_queries config maxq).map (fun q' => Event.search m q'.query),
            ?_, ?_⟩
          · simp [run_candidates, hc, hv]
          · rw [← h2]
            exact List.mem_map_of_mem _ ha
      · have hv' : (env m).validates = false := Bool.not_eq_true (env m).validates ▸ hv
        simp only [run_candidates, hc, hv', if_true, Bool.false_eq_true, if_false,
          List.mem_cons] at h
        rcases h with h | h | h
        · cases h
        · cases h
        · obtain ⟨pre, post, hpe, hpost⟩ := ih n q h
          refine ⟨Event.construct m true :: Event.validate m false :: pre, post, ?_, hpost⟩
          simp [run_candidates, hc, hv', hpe]
    · have hc' : (env m).constructs = false := Bool.not_eq_true (env m).constructs ▸ hc
      simp only [run_candidates, hc', Bool.false_eq_true, if_false, List.mem_cons] at h
      rcases h with h | h
      · cases h
      · obtain ⟨pre, post, hpe, hpost⟩ := ih n q h
        refine ⟨Event.construct m false :: pre, post, ?_, hpost⟩
        simp [run_candidates, hc', hpe]

/-- C1: in the daily-batch path, with a primary that fails validation and
fallbacks `[B, C]` where B fails construction and C validates, the run's
batch is produced by C (the active provider for the whole batch), no search
is ever sent to the primary or to B (every search event names C), and — in
general, for every environment and configuration — no provider's search
happens without an earlier successful `validate_config` event for that
provider in the same run. -/
theorem C1_fallback_only_validated_provider_searches (env : String → Candidate)
    (config : Config) (maxq : Nat) (now : String) (P B C : String)
    (hfb : (config.search_provider.getD SPSection.empty).fallback_providers = [B, C])
    (hPne : P ≠ "")
    (hPc : (env P).constructs = true) (hPv : (env P).validates = false)
    (hBc : (env B).constructs = false)
    (hCc : (env C).constructs = true) (hCv : (env C).validates = true) :
    (∃ b, (run_daily_searches env config maxq now (some P)).2 = some b ∧ b.provider = C) ∧
    (∀ n q, Event.search n q ∈ (run_daily_searches env config maxq now (some P)).1 → n = C) ∧
    (∀ q, Event.search P q ∉ (run_daily_searches env config maxq now (some P)).1) ∧
    (∀ q, Event.search B q ∉ (run_daily_searches env config maxq now (some P)).1) ∧
    (∀ (env' : String → Candidate) (config' : Config) (maxq' : Nat) (now' : String)
      (pn : Option String) (n q : String),
      Event.search n q ∈ (run_daily_searches env' config' maxq' now' pn).1 →
      ∃ pre post, (run_daily_searches env' config' maxq' now' pn).1 =
        pre ++ Event.validate n true :: post ∧ Event.search n q ∈ post) := by
  have hdc : daily_candidates config (some P) = [P, B, C] := by
    simp [daily_candidates, hPne, hfb]
  have hrun : run_daily_searches env config maxq now (some P) =
      (Event.construct P true :: Event.validate P false :: Event.construct B false ::
        Event.construct C true :: Event.validate C true ::
        (build_search_queries config maxq).map (fun q => Event.search C q.query),
       some (execute_searches ⟨C, (env C).search⟩ config maxq now)) := by
    show run_candidates env config maxq now (daily_candidates config (some P)) = _
    rw [hdc]
    simp [run_candidates, hPc, hPv, hBc, hCc, hCv]
  have honlyC : ∀ n q,
      Event.search n q ∈ (run_daily_searches env config maxq now (some P)).1 → n = C := by
    intro n q h
    rw [hrun] at h
    simp only [List.mem_cons] at h
    rcases h with h | h | h | h | h | h
    · cases h
    · cases h
    · cases h
    · cases h
    · cases h
    · obtain ⟨a, _, heq⟩ := List.mem_map.mp h
      injection heq with h1 h2
      exact h1.symm
  refine ⟨⟨execute_searches ⟨C, (env C).search⟩ config maxq now, by rw [hrun], rfl⟩,
    honlyC, ?_, ?_, ?_⟩
  · intro q hmem
    have hPC : P = C := honlyC P q hmem
    rw [hPC, hCv] at hPv
    cases hPv
  · intro q hmem
    have hBC : B = C := honlyC B q hmem
    rw [hBC, hCc] at hBc
    cases hBc
  · intro env' config' maxq' now' pn n q h
    exact run_candidates_validate_before_search env' config' maxq' now'
      (daily_candidates config' pn) n q h

/-- C2: when the primary and every fallback candidate fails validation or
construction, the daily run terminates on the fatal path — no ResultBatch is
produced (the results file is never written) and no search is ever invoked. -/
theorem C2_exhaustion_is_fatal_without_batch (env : String → Candidate)
    (config : Config) (maxq : Nat) (now : String) (provider_name : Option String)
    (h : ∀ n ∈ daily_candidates config provider_name,
      (env n).constructs = false ∨ (env n).validates = false) :
    (run_daily_searches env config maxq now provider_name).2 = none ∧
    ∀ n q, Event.search n q ∉ (run_daily_searches env config maxq now provider_name).1 :=
  run_candidates_all_fail env config maxq now (daily_candidates config provider_name) h

/-- A search behaviour that always fails. -/
def dummySearchFail : String → Query → SearchResult Query :=
  fun _ qi => standardize_result "" qi false (some "unavailable") "t"

/-- A search behaviour that always succeeds. -/
def dummySearchOk : String → Query → SearchResult Query :=
  fun _ qi => standardize_result "ok" qi true none "t"

/-- The Hudson Valley configuration with fallbacks `["openrouter", "ollama"]`. -/
def cfgScenario : Config :=
  { search_templates := cfg_C5.search_templates
    regions := cfg_C5.regions
    search_provider := some
      { default_provider := none
        fallback_providers := ["openrouter", "ollama"]
        claude := none
        openrouter := none
        ollama := none
        mcp := none } }

/-- An environment where claude constructs but fails validation, openrouter
fails construction, and everything else constructs and validates. -/
def envScenario : String → Candidate := fun n =>
  if n = "claude" then ⟨true, false, dummySearchFail⟩
  else if n = "openrouter" then ⟨false, true, dummySearchFail⟩
  else ⟨true, true, dummySearchOk⟩

/-- Witness for C1 at the concrete scenario: primary claude fails validation,
fallback openrouter fails construction, fallback ollama runs the batch. -/
theorem C1_fallback_only_validated_provider_searches_witness :
    (∃ b, (run_daily_searches envScenario cfgScenario 10 "t" (some "claude")).2 = some b ∧
      b.provider = "ollama") ∧
    (∀ n q, Event.search n q ∈
      (run_daily_searches envScenario cfgScenario 10 "t" (some "claude")).1 → n = "ollama") ∧
    (∀ q, Event.search "claude" q ∉
      (run_daily_searches envScenario cfgScenario 10 "t" (some "claude")).1) ∧
    (∀ q, Event.search "openrouter" q ∉
      (run_daily_searches envScenario cfgScenario 10 "t" (some "claude")).1) ∧
    (∀ (env' : String → Candidate) (config' : Config) (maxq' : Nat) (now' : String)
      (pn : Option String) (n q : String),
      Event.search n q ∈ (run_daily_searches env' config' maxq' now' pn).1 →
      ∃ pre post, (run_daily_searches env' config' maxq' now' pn).1 =
        pre ++ Event.validate n true :: post ∧ Event.search n q ∈ post) :=
  C1_fallback_only_validated_provider_searches envScenario cfgScenario 10 "t"
    "claude" "openrouter" "ollama" rfl (by decide) rfl rfl rfl rfl rfl

/-- An environment where every provider constructs but fails validation. -/
def envAllFail : String → Candidate := fun _ => ⟨true, false, dummySearchFail⟩

/-- Witness for C2 at the concrete scenario: every candidate fails, the run
ends fatally with no batch and no searches. -/
theorem C2_exhaustion_is_fatal_without_batch_witness :
    (run_daily_searches envAllFail cfgScenario 10 "t" (some "claude")).2 = none ∧
    ∀ n q, Event.search n q ∉
      (run_daily_searches envAllFail cfgScenario 10 "t" (some "claude")).1 :=
  C2_exhaustion_is_fatal_without_batch envAllFail cfgScenario 10 "t" (some "claude")
    (by decide)
